import Mathlib

/-!
# The order submission workflow of infball19-api

A shallow embedding of `MakeCharge` (`pkg/api/charge/charge.go`), the one HTTP
handler of the repository, and theorems about what it answers and which
collaborators it calls.

The handler is sequential code that talks to the outside world: Stripe
(tokens, SKUs, orders, charges), the UUN and meal validators and the ticket
mailer of package `base`, and the UUID generator. The embedding threads an
explicit world state of an arbitrary type `σ` through every such call, and
records what the handler itself does, in order, in a log of `Action`s: every
collaborator call with its arguments and with what it returned, and every
response the handler writes.

Conventions of the embedding:

* a Go `(value, error)` result is an `Except GoError value`; on `err == nil`
  the value is a well-formed (non-nil) object, as the clients guarantee;
* a Go `map[string]string` is an association list, read with `mapGet`, and a
  nil map is `none`;
* a Go string that came out of the JSON decoder is valid UTF-8, so it is a
  Lean `String`, and Go `len` is `String.utf8ByteSize`.
-/

namespace charge

deriving instance DecidableEq for Except

/-- A Go `error` as `MakeCharge` can observe it: either a `*stripe.Error`, with
its `Msg` field and the text its `Error()` method renders, or any other error,
with its `Error()` text. -/
inductive GoError where
  | stripe (Msg : String) (text : String)
  | other (text : String)
  deriving DecidableEq, Repr

/-- The method `err.Error()`. -/
def GoError.Error : GoError → String
  | .stripe _ text => text
  | .other text => text

/-- The type assertion `err.(*stripe.Error)`: the structured error's `Msg`
when it succeeds. -/
def GoError.asStripe : GoError → Option String
  | .stripe Msg _ => some Msg
  | .other _ => none

/-- The message the handler extracts from a failed Stripe call, written out
three times in the source:
`msg := err.Error(); if stripeErr, ok := err.(*stripe.Error); ok { msg = stripeErr.Msg }`. -/
def errMsg (err : GoError) : String :=
  match err.asStripe with
  | some Msg => Msg
  | none => err.Error

/-- Reading a Go `map[string]string`: the value of the key, and the empty
string when the key is absent. -/
def mapGet (m : List (String × String)) (key : String) : String :=
  match m.lookup key with
  | some v => v
  | none => ""

/-- The local `result` struct that `c.BindJSON` fills. `CardInfo` is `none`
for a nil map (the field absent from the body, or JSON null) and `some m`
for a map that is present, `some []` when it has no entries. -/
structure Request where
  CardInfo : Option (List (String × String))
  StaffCode : String
  FullName : String
  UUN : String
  Email : String
  MealType : String
  SpecialReqs : String
  deriving DecidableEq, Repr

/-- The fields of `stripe.CardParams` that the handler sets. -/
structure CardParams where
  Number : String
  ExpMonth : String
  ExpYear : String
  CVC : String
  deriving DecidableEq, Repr

/-- A `*stripe.Token`, returned by `token.New`. -/
structure Token where
  ID : String
  deriving DecidableEq, Repr

/-- The `*stripe.Inventory` of a SKU; `Quantity` is an `int64`. -/
structure Inventory where
  Quantity : Int
  Type_ : String
  Value : String
  deriving DecidableEq, Repr

/-- A `*stripe.SKU`, as far as the handler reads it. -/
structure SKU where
  Inventory : Inventory
  deriving DecidableEq, Repr

/-- A `*stripe.Charge`, as far as the handler reads it. -/
structure Charge where
  ID : String
  deriving DecidableEq, Repr

/-- A `*stripe.Order`, as far as the handler reads it: `order.ID`, `o.ID` and
`o.Charge.ID`. -/
structure Order where
  ID : String
  Charge : Charge
  deriving DecidableEq, Repr

/-- One entry of `stripe.OrderParams.Items`. -/
structure OrderItemParams where
  Type_ : String
  Parent : String
  deriving DecidableEq, Repr

/-- The `stripe.OrderParams` the handler builds; `Metadata` is
`Params.Metadata`, in the order of the map literal. -/
structure OrderParams where
  Currency : String
  Items : List OrderItemParams
  Metadata : List (String × String)
  Email : String
  deriving DecidableEq, Repr

/-- The `stripe.OrderUpdateParams` the handler builds. -/
structure OrderUpdateParams where
  Status : String
  deriving DecidableEq, Repr

/-- The `stripe.ChargeParams` the handler builds. -/
structure ChargeParams where
  Description : String
  deriving DecidableEq, Repr

/-- The arguments of `base.SendTicketEmail` after the context and the Mailgun
client: name, address, order id, authorization token, product tag, QR path. -/
structure TicketEmail where
  name : String
  toAddress : String
  orderID : String
  authToken : String
  product : String
  qrPath : String
  deriving DecidableEq, Repr

/-- The constant `stripe.CurrencyGBP` of stripe-go. -/
def CurrencyGBP : String := "gbp"

/-- The constant `stripe.OrderItemTypeSKU` of stripe-go. -/
def OrderItemTypeSKU : String := "sku"

/-- The constant `stripe.OrderStatusCanceled` of stripe-go. -/
def OrderStatusCanceled : String := "canceled"

/-- The constant `http.StatusOK`. -/
def StatusOK : Nat := 200

/-- The constant `http.StatusGone`. -/
def StatusGone : Nat := 410

/-- The constant `http.StatusInternalServerError`. -/
def StatusInternalServerError : Nat := 500

/-- A response the handler writes: `c.JSON(code, gin.H{...})`, the body as the
key/value pairs of the literal, or `base.BadRequest(c, msg)`. -/
inductive Written where
  | JSON (code : Nat) (body : List (String × String))
  | BadRequest (msg : String)
  deriving DecidableEq, Repr

/-- Modelled from the spec: `base.BadRequest` lives in package `pkg/api/base`,
which is not among the sources. The spec gives its response as
`400 {status:?, message: <text>}`; this is the HTTP status of a written
response, 400 for a bad request. -/
def Written.code : Written → Nat
  | .JSON code _ => code
  | .BadRequest _ => 400

/-- Modelled from the spec: the `message` of a written response; for
`base.BadRequest` (package `pkg/api/base`, not among the sources) it is the
text handed to it. -/
def Written.message : Written → Option String
  | .JSON _ body => body.lookup "message"
  | .BadRequest msg => some msg

/-- One thing the handler does: a collaborator call, with its arguments and
with what it returned, a print, or a response written. `goChargesUpdate` is
the `go` statement: the call is started and never awaited, so it has no
result here. -/
inductive Action where
  | tokenNew (card : CardParams) (ret : Except GoError Token)
  | CheckUUN (uun : String) (ret : Bool)
  | IsMealValid (meal : String) (ret : Bool)
  | SkusGet (id : String) (ret : Except GoError SKU)
  | uuidNew (ret : String)
  | OrdersNew (params : OrderParams) (ret : Except GoError Order)
  | OrdersPay (id : String) (source : Token) (ret : Except GoError Order)
  | OrdersUpdate (id : String) (params : OrderUpdateParams) (ret : Except GoError Order)
  | goChargesUpdate (id : String) (params : ChargeParams)
  | SendTicketEmail (mail : TicketEmail) (ret : Bool)
  | Printf (inv : Inventory)
  | write (w : Written)
  deriving DecidableEq, Repr

/-- The configuration `i.Config.Stripe`. -/
structure StripeConfig where
  SKU : String
  deriving DecidableEq, Repr

/-- The configuration `i.Config`, as far as the handler reads it. -/
structure Config where
  StaffCode : String
  Stripe : StripeConfig
  deriving DecidableEq, Repr

/-- The receiver `i *Impl` together with the package-level collaborators the
handler calls. Each call that can touch the outside world takes the world
state and returns the next one. `mailParseAddress` is `mail.ParseAddress` of
the standard library, a pure function of which only the error is used;
`OrdersPay` receives the token that was handed to `params.SetSource`;
`CheckUUN` and `SendTicketEmail` write their own response when they return
false, inside the world state. -/
structure Impl (σ : Type) where
  Config : Config
  tokenNew : CardParams → σ → Except GoError Token × σ
  mailParseAddress : String → Except GoError Unit
  CheckUUN : String → σ → Bool × σ
  IsMealValid : String → Bool
  SkusGet : String → σ → Except GoError SKU × σ
  uuidNew : σ → String × σ
  OrdersNew : OrderParams → σ → Except GoError Order × σ
  OrdersPay : String → Token → σ → Except GoError Order × σ
  OrdersUpdate : String → OrderUpdateParams → σ → Except GoError Order × σ
  SendTicketEmail : TicketEmail → σ → Bool × σ

/-- What a run of the handler leaves: the world state after its last
collaborator call and the log of its actions, in order. -/
structure Run (σ : Type) where
  world : σ
  log : List Action

/-- The run that does `done` first and then continues as `rest`. -/
def Run.after {σ : Type} (done : List Action) (rest : Run σ) : Run σ :=
  ⟨rest.world, done ++ rest.log⟩

/-- The `stripe.CardParams` built from the request's card map. -/
def cardParams (CardInfo : List (String × String)) : CardParams :=
  { Number := mapGet CardInfo "number"
    ExpMonth := mapGet CardInfo "expmonth"
    ExpYear := mapGet CardInfo "expyear"
    CVC := mapGet CardInfo "cvc" }

/-- The display address `result.FullName + "<" + result.Email + ">"`. -/
def toAddress (result : Request) : String :=
  result.FullName ++ "<" ++ result.Email ++ ">"

/-- The `stripe.OrderParams` of the order the handler creates. -/
def orderParams (cfg : Config) (result : Request) (authToken : String) : OrderParams :=
  { Currency := CurrencyGBP
    Items := [{ Type_ := OrderItemTypeSKU, Parent := cfg.Stripe.SKU }]
    Metadata :=
      [ ("uun", result.UUN),
        ("purchaser_email", result.Email),
        ("purchaser_name", result.FullName),
        ("owner_email", result.Email),
        ("owner_name", result.FullName),
        ("meal_type", result.MealType),
        ("special_requests", result.SpecialReqs),
        ("auth_token", authToken) ]
    Email := result.Email }

/-- The arguments the handler hands to `base.SendTicketEmail` for the paid
order `o`: `result.FullName, toAddress, o.ID, authToken, "infball", "../qr"`. -/
def ticketEmail (result : Request) (o : Order) (authToken : String) : TicketEmail :=
  { name := result.FullName, toAddress := toAddress result, orderID := o.ID,
    authToken := authToken, product := "infball", qrPath := "../qr" }

/-- The handler `(i *Impl) MakeCharge(c *gin.Context)`. `bind` is what
`c.BindJSON(&result)` produced from the body: the error text, or the filled
struct. -/
def MakeCharge {σ : Type} (i : Impl σ) (bind : Except String Request) (s : σ) : Run σ :=
  match bind with
  | .error err => ⟨s, [.write (.BadRequest err)]⟩
  | .ok result =>
  if result.StaffCode ≠ i.Config.StaffCode then
    ⟨s, [.write (.BadRequest "Invalid staff code provided.")]⟩
  else
  match result.CardInfo with
  | none => ⟨s, [.write (.BadRequest "Card information is missing.")]⟩
  | some CardInfo =>
  let r1 := i.tokenNew (cardParams CardInfo) s
  Run.after [.tokenNew (cardParams CardInfo) r1.1] <|
  match r1.1 with
  | .error _ => ⟨r1.2, [.write (.BadRequest "Invalid card information.")]⟩
  | .ok token =>
  if result.FullName = "" then
    ⟨r1.2, [.write (.BadRequest "Full name missing.")]⟩
  else
  match i.mailParseAddress (toAddress result) with
  | .error _ =>
    ⟨r1.2, [.write (.BadRequest
      "Invalid email format provided. Please email infball@comp-soc.com if this is a mistake.")]⟩
  | .ok _ =>
  let r2 := i.CheckUUN result.UUN r1.2
  Run.after [.CheckUUN result.UUN r2.1] <|
  if r2.1 = false then
    ⟨r2.2, []⟩
  else
  Run.after [.IsMealValid result.MealType (i.IsMealValid result.MealType)] <|
  if i.IsMealValid result.MealType = false then
    ⟨r2.2, [.write (.BadRequest "Invalid food selection.")]⟩
  else
  if result.SpecialReqs.utf8ByteSize > 500 then
    ⟨r2.2, [.write (.BadRequest
      "Sorry, your request is limited to 500 characters. Please email infball@comp-soc.com for assistance.")]⟩
  else
  let r3 := i.SkusGet i.Config.Stripe.SKU r2.2
  Run.after [.SkusGet i.Config.Stripe.SKU r3.1] <|
  match r3.1 with
  | .error err =>
    ⟨r3.2, [.write (.JSON StatusInternalServerError
      [("status", "error"), ("message", errMsg err)])]⟩
  | .ok sku =>
  Run.after [.Printf sku.Inventory] <|
  if sku.Inventory.Quantity = 0 then
    ⟨r3.2, [.write (.JSON StatusGone
      [("status", "error"), ("message", "Sorry! We have run out of tickets... for now.")])]⟩
  else
  let r4 := i.uuidNew r3.2
  let authToken := r4.1
  let r5 := i.OrdersNew (orderParams i.Config result authToken) r4.2
  Run.after [.uuidNew authToken, .OrdersNew (orderParams i.Config result authToken) r5.1] <|
  match r5.1 with
  | .error err =>
    ⟨r5.2, [.write (.JSON StatusInternalServerError
      [("status", "error"), ("message", errMsg err)])]⟩
  | .ok order =>
  let r6 := i.OrdersPay order.ID token r5.2
  Run.after [.OrdersPay order.ID token r6.1] <|
  match r6.1 with
  | .error err =>
    let r7 := i.OrdersUpdate order.ID { Status := OrderStatusCanceled } r6.2
    ⟨r7.2, [.OrdersUpdate order.ID { Status := OrderStatusCanceled } r7.1,
      .write (.BadRequest (errMsg err))]⟩
  | .ok o =>
  let r8 := i.SendTicketEmail (ticketEmail result o authToken) r6.2
  Run.after [.goChargesUpdate o.Charge.ID { Description := "Informatics ball 2019 ticket" },
    .SendTicketEmail (ticketEmail result o authToken) r8.1] <|
  if r8.1 = false then
    ⟨r8.2, []⟩
  else
    ⟨r8.2, [.write (.JSON StatusOK [("status", "success"), ("data", o.ID)])]⟩

/-! ## Reading a run -/

/-- Whether an action is a call to a collaborator (anything but a print or a
response of the handler itself). -/
def Action.isCall : Action → Bool
  | .Printf _ => false
  | .write _ => false
  | _ => true

/-- Whether an action is a call to the payment processor. -/
def Action.isPaymentCall : Action → Bool
  | .tokenNew _ _ => true
  | .SkusGet _ _ => true
  | .OrdersNew _ _ => true
  | .OrdersPay _ _ _ => true
  | .OrdersUpdate _ _ _ => true
  | .goChargesUpdate _ _ => true
  | _ => false

/-- Whether an action is `i.Stripe.Orders.New`. -/
def Action.isOrdersNew : Action → Bool
  | .OrdersNew _ _ => true
  | _ => false

/-- Whether an action is `i.Stripe.Orders.Pay`. -/
def Action.isOrdersPay : Action → Bool
  | .OrdersPay _ _ _ => true
  | _ => false

/-- Whether an action is `i.Stripe.Orders.Update`. -/
def Action.isOrdersUpdate : Action → Bool
  | .OrdersUpdate _ _ _ => true
  | _ => false

/-- Whether an action is `base.SendTicketEmail`. -/
def Action.isSendTicketEmail : Action → Bool
  | .SendTicketEmail _ _ => true
  | _ => false

/-- Whether an action is `i.Stripe.Skus.Get`. -/
def Action.isSkusGet : Action → Bool
  | .SkusGet _ _ => true
  | _ => false

/-- Whether an action is `uuid.New`. -/
def Action.isUuidNew : Action → Bool
  | .uuidNew _ => true
  | _ => false

/-- The response an action writes, if it is one. -/
def Action.written : Action → Option Written
  | .write w => some w
  | _ => none

/-- The collaborator calls of a run, in order. -/
def Run.calls {σ : Type} (r : Run σ) : List Action :=
  r.log.filter Action.isCall

/-- The responses the handler itself wrote during a run, in order. -/
def Run.responses {σ : Type} (r : Run σ) : List Written :=
  r.log.filterMap Action.written

/-! ## What it means for the steps of the workflow to succeed -/

/-- Steps 2 to 8 of the workflow succeed on `result` from the world `s`: the
staff code is the configured one, the card map `CardInfo` is present,
tokenization returns `token` (leaving the world `s1`), the full name is not
empty, the display address parses, the UUN check accepts (leaving the world
`s2`) and the meal type is valid. -/
def PassesSteps2to8 {σ : Type} (i : Impl σ) (result : Request) (s : σ)
    (CardInfo : List (String × String)) (token : Token) (s1 s2 : σ) : Prop :=
  result.StaffCode = i.Config.StaffCode ∧
  result.CardInfo = some CardInfo ∧
  i.tokenNew (cardParams CardInfo) s = (.ok token, s1) ∧
  result.FullName ≠ "" ∧
  i.mailParseAddress (toAddress result) = .ok () ∧
  i.CheckUUN result.UUN s1 = (true, s2) ∧
  i.IsMealValid result.MealType = true

/-- The log of a run up to and including step 8, when steps 2 to 8 succeed. -/
def validationLog (result : Request) (CardInfo : List (String × String)) (token : Token) :
    List Action :=
  [.tokenNew (cardParams CardInfo) (.ok token), .CheckUUN result.UUN true,
    .IsMealValid result.MealType true]

/-- All the validation steps succeed: steps 2 to 8, and the special requests
pass the length check of step 9 as the handler makes it, on `len`. -/
def PassesValidation {σ : Type} (i : Impl σ) (result : Request) (s : σ)
    (CardInfo : List (String × String)) (token : Token) (s1 s2 : σ) : Prop :=
  PassesSteps2to8 i result s CardInfo token s1 s2 ∧ result.SpecialReqs.utf8ByteSize ≤ 500

/-- The request reaches order creation: validation succeeds and the inventory
query returns `sku` (leaving the world `s3`) with a quantity other than 0. -/
def ReachesOrderCreation {σ : Type} (i : Impl σ) (result : Request) (s : σ)
    (CardInfo : List (String × String)) (token : Token) (sku : SKU) (s1 s2 s3 : σ) : Prop :=
  PassesValidation i result s CardInfo token s1 s2 ∧
  i.SkusGet i.Config.Stripe.SKU s2 = (.ok sku, s3) ∧
  sku.Inventory.Quantity ≠ 0

/-- The request reaches the payment step: it reaches order creation, and
creating the order, with the token generated in the world `s3`, returns
`order` (leaving the world `s5`). -/
def ReachesPayment {σ : Type} (i : Impl σ) (result : Request) (s : σ)
    (CardInfo : List (String × String)) (token : Token) (sku : SKU) (order : Order)
    (s1 s2 s3 s5 : σ) : Prop :=
  ReachesOrderCreation i result s CardInfo token sku s1 s2 s3 ∧
  i.OrdersNew (orderParams i.Config result (i.uuidNew s3).1) (i.uuidNew s3).2 = (.ok order, s5)

/-- Every step of the workflow succeeds on the bound body `bind` from the world
`s`, in the words of the spec, and `o` is the paid order that the payment step
returns: the body parses, steps 2 to 8 succeed, the special requests are
within the limit of 500 characters, the inventory query succeeds with a
quantity other than 0, the order creation succeeds, the payment succeeds and
the email collaborator reports success. -/
def AllStepsSucceed {σ : Type} (i : Impl σ) (bind : Except String Request) (s : σ)
    (o : Order) : Prop :=
  ∃ result CardInfo token sku order s1 s2 s3 s5 s6 s8,
    bind = .ok result ∧
    PassesSteps2to8 i result s CardInfo token s1 s2 ∧
    result.SpecialReqs.length ≤ 500 ∧
    i.SkusGet i.Config.Stripe.SKU s2 = (.ok sku, s3) ∧
    sku.Inventory.Quantity ≠ 0 ∧
    i.OrdersNew (orderParams i.Config result (i.uuidNew s3).1) (i.uuidNew s3).2 =
      (.ok order, s5) ∧
    i.OrdersPay order.ID token s5 = (.ok o, s6) ∧
    i.SendTicketEmail (ticketEmail result o (i.uuidNew s3).1) s6 = (true, s8)

/-- The special requests of the bound body pass the length check as the handler
makes it, `len(result.SpecialReqs) > 500` on the bytes. -/
def PassesLengthCheck (bind : Except String Request) : Prop :=
  ∀ result, bind = .ok result → result.SpecialReqs.utf8ByteSize ≤ 500

/-! ## A scripted world, for running the handler on concrete requests -/

/-- What each collaborator answers when it is called. -/
structure Script where
  token : Except GoError Token
  address : Except GoError Unit
  uun : Bool
  meal : Bool
  sku : Except GoError SKU
  uuid : String
  order : Except GoError Order
  paid : Except GoError Order
  update : Except GoError Order
  mailed : Bool

/-- The handler's receiver in a world that follows a script; the world state
counts the calls that touched it. -/
def scripted (cfg : Config) (sc : Script) : Impl Nat where
  Config := cfg
  tokenNew _ n := (sc.token, n + 1)
  mailParseAddress _ := sc.address
  CheckUUN _ n := (sc.uun, n + 1)
  IsMealValid _ := sc.meal
  SkusGet _ n := (sc.sku, n + 1)
  uuidNew n := (sc.uuid, n + 1)
  OrdersNew _ n := (sc.order, n + 1)
  OrdersPay _ _ n := (sc.paid, n + 1)
  OrdersUpdate _ _ n := (sc.update, n + 1)
  SendTicketEmail _ n := (sc.mailed, n + 1)

/-- The configuration of the end-to-end scenario of the spec. -/
def demoConfig : Config :=
  { StaffCode := "ABC123", Stripe := { SKU := "sku_ticket" } }

/-- The card map of the end-to-end scenario. -/
def demoCard : List (String × String) :=
  [("number", "4242424242424242"), ("expmonth", "12"), ("expyear", "2030"), ("cvc", "123")]

/-- The request of the end-to-end scenario of the spec. -/
def demoRequest : Request :=
  { CardInfo := some demoCard, StaffCode := "ABC123", FullName := "Ada Lovelace",
    UUN := "s1234567", Email := "ada@ed.ac.uk", MealType := "standard", SpecialReqs := "" }

/-- The script of the end-to-end scenario: everything succeeds and five
tickets are left. -/
def demoScript : Script :=
  { token := .ok { ID := "tok_1" }
    address := .ok ()
    uun := true
    meal := true
    sku := .ok { Inventory := { Quantity := 5, Type_ := "finite", Value := "" } }
    uuid := "6ba7b810-9dad-11d1-80b4-00c04fd430c8"
    order := .ok { ID := "or_1", Charge := { ID := "" } }
    paid := .ok { ID := "or_1", Charge := { ID := "ch_1" } }
    update := .ok { ID := "or_1", Charge := { ID := "" } }
    mailed := true }

/-- A string of `n` copies of the character `c`. -/
def repeated (n : Nat) (c : Char) : String :=
  String.mk (List.replicate n c)

/-- The handler's receiver of the end-to-end scenario. -/
def demoImpl : Impl Nat :=
  scripted demoConfig demoScript

/-- The scenario with a staff code that is not the configured one. -/
def wrongStaffRequest : Request :=
  { demoRequest with StaffCode := "XYZ999" }

/-- The scenario with no card map in the body. -/
def noCardRequest : Request :=
  { demoRequest with CardInfo := none }

/-- The scenario with a card map that is present and has no entries. -/
def emptyCardRequest : Request :=
  { demoRequest with CardInfo := some [] }

/-- The scenario with 501 ASCII characters of special requests. -/
def longRequest : Request :=
  { demoRequest with SpecialReqs := repeated 501 (Char.ofNat 97) }

/-- The scenario with 501 characters of special requests and a staff code that
is not the configured one. -/
def longWrongStaffRequest : Request :=
  { longRequest with StaffCode := "XYZ999" }

/-- The scenario with 251 two-byte characters (e with acute accent, U+00E9) of
special requests: 251 characters, 502 bytes. -/
def multibyteRequest : Request :=
  { demoRequest with SpecialReqs := repeated 251 (Char.ofNat 233) }

/-- A structured processor error. -/
def cardDeclined : GoError :=
  .stripe "Your card was declined." "card_error: Your card was declined."

/-- An error that is not of the processor's structured kind. -/
def connectionReset : GoError :=
  .other "read tcp: connection reset by peer"

/-- The world where the processor rejects the card at tokenization. -/
def tokenFailImpl : Impl Nat :=
  scripted demoConfig { demoScript with token := .error cardDeclined }

/-- The world where no ticket is left. -/
def soldOutImpl : Impl Nat :=
  scripted demoConfig
    { demoScript with sku := .ok { Inventory := { Quantity := 0, Type_ := "finite", Value := "" } } }

/-- The world where the inventory query fails. -/
def skuFailImpl : Impl Nat :=
  scripted demoConfig { demoScript with sku := .error connectionReset }

/-- The world where creating the order fails. -/
def orderFailImpl : Impl Nat :=
  scripted demoConfig { demoScript with order := .error cardDeclined }

/-- The world where paying the order fails, and so does cancelling it. -/
def payFailImpl : Impl Nat :=
  scripted demoConfig
    { demoScript with paid := .error cardDeclined, update := .error connectionReset }

/-- The world where the ticket email fails after the payment. -/
def mailFailImpl : Impl Nat :=
  scripted demoConfig { demoScript with mailed := false }

/-- The message of the length-limit client error. -/
def lengthLimitMessage : String :=
  "Sorry, your request is limited to 500 characters. Please email infball@comp-soc.com for assistance."

/-! ## Facts about strings and about the log -/

theorem utf8ByteSize_go_ge_length (cs : List Char) :
    cs.length ≤ String.utf8ByteSize.go cs := by
  induction cs with
  | nil => simp [String.utf8ByteSize.go]
  | cons c cs ih =>
    have hc := Char.utf8Size_pos c
    simp only [String.utf8ByteSize.go, List.length_cons]
    omega

theorem length_le_utf8ByteSize (str : String) : str.length ≤ str.utf8ByteSize := by
  cases str with
  | mk cs => exact utf8ByteSize_go_ge_length cs

theorem length_repeated (n : Nat) (c : Char) : (repeated n c).length = n := by
  simp [repeated, String.length]

theorem utf8Len_replicate (n : Nat) (c : Char) :
    String.utf8Len (List.replicate n c) = n * c.utf8Size := by
  induction n with
  | zero => simp
  | succ n ih => simp [List.replicate_succ, ih, Nat.succ_mul]

theorem utf8ByteSize_repeated (n : Nat) (c : Char) :
    (repeated n c).utf8ByteSize = n * c.utf8Size := by
  simp [repeated, utf8Len_replicate]

/-- The run of a request that passes steps 2 to 8 and whose special requests
take more than 500 bytes: the length-limit client error, after the calls of
the validation and nothing else. -/
theorem run_of_long_special_reqs {σ : Type} (i : Impl σ) (result : Request) (s : σ)
    (CardInfo : List (String × String)) (token : Token) (s1 s2 : σ)
    (h : PassesSteps2to8 i result s CardInfo token s1 s2)
    (hlen : 500 < result.SpecialReqs.utf8ByteSize) :
    MakeCharge i (.ok result) s =
      ⟨s2, validationLog result CardInfo token ++ [.write (.BadRequest lengthLimitMessage)]⟩ := by
  obtain ⟨h1, h2, h3, h4, h5, h6, h7⟩ := h
  simp [MakeCharge, h1, h2, h3, h4, h5, h6, h7, hlen, Run.after, validationLog,
    lengthLimitMessage]

/-! ## The claims -/

/-- C1: a request whose body parses and whose staff code is not the configured
one, whatever its other fields, is answered with the bad request "Invalid
staff code provided.", status 400, and nothing else happens: the log of the
run is that one response, no collaborator is called (no tokenization, no
inventory query, no order creation, payment or cancellation, no UUN check, no
ticket email) and the world is left as it was. -/
theorem staff_code_mismatch_rejected {σ : Type} (i : Impl σ) (result : Request) (s : σ)
    (h : result.StaffCode ≠ i.Config.StaffCode) :
    MakeCharge i (.ok result) s = ⟨s, [.write (.BadRequest "Invalid staff code provided.")]⟩ ∧
    (MakeCharge i (.ok result) s).responses = [.BadRequest "Invalid staff code provided."] ∧
    (Written.BadRequest "Invalid staff code provided.").code = 400 ∧
    (MakeCharge i (.ok result) s).calls = [] := by
  simp [MakeCharge, h, Run.responses, Run.calls, Action.written, Action.isCall, Written.code]

/-- C1, on the scenario with the staff code "XYZ999" where "ABC123" is
configured. -/
theorem staff_code_mismatch_rejected_witness :
    MakeCharge demoImpl (.ok wrongStaffRequest) 0 =
      ⟨0, [.write (.BadRequest "Invalid staff code provided.")]⟩ ∧
    (MakeCharge demoImpl (.ok wrongStaffRequest) 0).responses =
      [.BadRequest "Invalid staff code provided."] ∧
    (Written.BadRequest "Invalid staff code provided.").code = 400 ∧
    (MakeCharge demoImpl (.ok wrongStaffRequest) 0).calls = [] :=
  staff_code_mismatch_rejected demoImpl wrongStaffRequest 0 (by decide)

/-- C2 as stated fails: a request with the configured staff code and a card
map that is present with no entries is not answered "Card information is
missing."; the handler calls the tokenization with four empty strings, and
here, where the processor rejects them, answers "Invalid card information.". -/
theorem empty_card_map_reaches_tokenization :
    emptyCardRequest.StaffCode = tokenFailImpl.Config.StaffCode ∧
    emptyCardRequest.CardInfo = some [] ∧
    (MakeCharge tokenFailImpl (.ok emptyCardRequest) 0).log =
      [.tokenNew { Number := "", ExpMonth := "", ExpYear := "", CVC := "" } (.error cardDeclined),
        .write (.BadRequest "Invalid card information.")] ∧
    ¬ ((MakeCharge tokenFailImpl (.ok emptyCardRequest) 0).responses =
          [.BadRequest "Card information is missing."] ∧
        (MakeCharge tokenFailImpl (.ok emptyCardRequest) 0).log.filter Action.isPaymentCall = []) := by
  decide

/-- C2, amended: for a request with the configured staff code, if the card map
is absent (a nil map) the handler answers the bad request "Card information
is missing.", status 400, and calls no collaborator; if the card map is
present, even with no entries, the first thing the handler does is call the
tokenization, with the card fields read from the map, an absent key read as
the empty string. -/
theorem missing_card_rejected {σ : Type} (i : Impl σ) (result : Request) (s : σ)
    (hstaff : result.StaffCode = i.Config.StaffCode) :
    (result.CardInfo = none →
      MakeCharge i (.ok result) s = ⟨s, [.write (.BadRequest "Card information is missing.")]⟩ ∧
      (Written.BadRequest "Card information is missing.").code = 400 ∧
      (MakeCharge i (.ok result) s).calls = []) ∧
    (∀ CardInfo, result.CardInfo = some CardInfo →
      (MakeCharge i (.ok result) s).log.head? =
        some (.tokenNew (cardParams CardInfo) (i.tokenNew (cardParams CardInfo) s).1)) ∧
    cardParams [] = { Number := "", ExpMonth := "", ExpYear := "", CVC := "" } := by
  refine ⟨?_, ?_, rfl⟩
  · intro hcard
    simp [MakeCharge, hstaff, hcard, Run.calls, Action.isCall, Written.code]
  · intro CardInfo hcard
    simp [MakeCharge, hstaff, hcard, Run.after]

/-- C2 amended, on the scenario with no card map: the answer is "Card
information is missing." and no collaborator is called. -/
theorem missing_card_rejected_witness :
    MakeCharge demoImpl (.ok noCardRequest) 0 =
      ⟨0, [.write (.BadRequest "Card information is missing.")]⟩ ∧
    (Written.BadRequest "Card information is missing.").code = 400 ∧
    (MakeCharge demoImpl (.ok noCardRequest) 0).calls = [] :=
  (missing_card_rejected demoImpl noCardRequest 0 rfl).1 rfl

/-- C3 as stated fails: a request with 501 characters of special requests and a
staff code that is not the configured one is answered "Invalid staff code
provided.", not with the length-limit error. -/
theorem long_special_reqs_with_wrong_staff_code :
    500 < longWrongStaffRequest.SpecialReqs.length ∧
    (MakeCharge demoImpl (.ok longWrongStaffRequest) 0).responses =
      [.BadRequest "Invalid staff code provided."] ∧
    (MakeCharge demoImpl (.ok longWrongStaffRequest) 0).responses ≠
      [.BadRequest lengthLimitMessage] := by
  refine ⟨?_, ?_, ?_⟩
  · show 500 < (repeated 501 (Char.ofNat 97)).length
    rw [length_repeated]
    decide
  · decide
  · decide

/-- C3, amended: a request that passes steps 1 to 8 (the body parses, the staff
code is the configured one, the card map is present, tokenization succeeds,
the full name is not empty, the display address parses, the UUN check accepts,
the meal type is valid) and whose special requests are longer than 500
characters is answered with the length-limit bad request, status 400, and the
run ends there. -/
theorem long_special_reqs_rejected {σ : Type} (i : Impl σ) (result : Request) (s : σ)
    (CardInfo : List (String × String)) (token : Token) (s1 s2 : σ)
    (h : PassesSteps2to8 i result s CardInfo token s1 s2)
    (hlen : 500 < result.SpecialReqs.length) :
    MakeCharge i (.ok result) s =
      ⟨s2, validationLog result CardInfo token ++ [.write (.BadRequest lengthLimitMessage)]⟩ ∧
    (MakeCharge i (.ok result) s).responses = [.BadRequest lengthLimitMessage] ∧
    (Written.BadRequest lengthLimitMessage).code = 400 := by
  have hrun := run_of_long_special_reqs i result s CardInfo token s1 s2 h
    (Nat.lt_of_lt_of_le hlen (length_le_utf8ByteSize _))
  refine ⟨hrun, ?_, rfl⟩
  rw [hrun]
  simp [Run.responses, validationLog, Action.written]

/-- C3 amended, on the end-to-end scenario with 501 characters of special
requests. -/
theorem long_special_reqs_rejected_witness :
    MakeCharge demoImpl (.ok longRequest) 0 =
      ⟨2, validationLog longRequest demoCard { ID := "tok_1" } ++
        [.write (.BadRequest lengthLimitMessage)]⟩ ∧
    (MakeCharge demoImpl (.ok longRequest) 0).responses = [.BadRequest lengthLimitMessage] ∧
    (Written.BadRequest lengthLimitMessage).code = 400 :=
  long_special_reqs_rejected demoImpl longRequest 0 demoCard { ID := "tok_1" } 1 2
    ⟨rfl, rfl, rfl, by decide, rfl, rfl, rfl⟩
    (by show 500 < (repeated 501 (Char.ofNat 97)).length; rw [length_repeated]; decide)

/-- C4: a request that passes all the validation steps and for which the
inventory query succeeds with quantity 0 is answered 410 with status "error"
and the message "Sorry! We have run out of tickets... for now."; the run ends
with that response, and it holds no order creation, no payment, no
cancellation and no ticket email. -/
theorem sold_out_gone {σ : Type} (i : Impl σ) (result : Request) (s : σ)
    (CardInfo : List (String × String)) (token : Token) (s1 s2 s3 : σ) (sku : SKU)
    (h : PassesValidation i result s CardInfo token s1 s2)
    (hsku : i.SkusGet i.Config.Stripe.SKU s2 = (.ok sku, s3))
    (hq : sku.Inventory.Quantity = 0) :
    MakeCharge i (.ok result) s =
      ⟨s3, validationLog result CardInfo token ++
        [.SkusGet i.Config.Stripe.SKU (.ok sku), .Printf sku.Inventory,
          .write (.JSON 410 [("status", "error"),
            ("message", "Sorry! We have run out of tickets... for now.")])]⟩ ∧
    (MakeCharge i (.ok result) s).responses =
      [.JSON 410 [("status", "error"),
        ("message", "Sorry! We have run out of tickets... for now.")]] ∧
    (∀ a ∈ (MakeCharge i (.ok result) s).log,
      a.isOrdersNew = false ∧ a.isOrdersPay = false ∧ a.isOrdersUpdate = false ∧
      a.isSendTicketEmail = false) := by
  obtain ⟨⟨h1, h2, h3, h4, h5, h6, h7⟩, h8⟩ := h
  simp [MakeCharge, h1, h2, h3, h4, h5, h6, h7, Nat.not_lt.mpr h8, hsku, hq, Run.after,
    validationLog, StatusGone, Run.responses, Action.written, Action.isOrdersNew,
    Action.isOrdersPay, Action.isOrdersUpdate, Action.isSendTicketEmail]

/-- C4, on the end-to-end scenario with no ticket left. -/
theorem sold_out_gone_witness :
    (MakeCharge soldOutImpl (.ok demoRequest) 0).responses =
      [.JSON 410 [("status", "error"),
        ("message", "Sorry! We have run out of tickets... for now.")]] :=
  (sold_out_gone soldOutImpl demoRequest 0 demoCard { ID := "tok_1" } 1 2 3
    { Inventory := { Quantity := 0, Type_ := "finite", Value := "" } }
    ⟨⟨rfl, rfl, rfl, by decide, rfl, rfl, rfl⟩, by decide⟩ rfl rfl).2.1

/-- C5: for a request that reaches the payment step and whose payment fails
with `err`, whatever the cancellation then returns (`upd`), the run ends with
the payment call, one update of the order just created (the same id) setting
its status to canceled, and the bad request carrying the processor's message
(`Msg` of a structured processor error, the error text otherwise), status 400.
That update is the only one, the bad request is the only response (so no
success response), and no ticket email is sent. -/
theorem failed_payment_cancels_order {σ : Type} (i : Impl σ) (result : Request) (s : σ)
    (CardInfo : List (String × String)) (token : Token) (sku : SKU) (order : Order)
    (s1 s2 s3 s5 s6 s7 : σ) (err : GoError) (upd : Except GoError Order)
    (h : ReachesPayment i result s CardInfo token sku order s1 s2 s3 s5)
    (hpay : i.OrdersPay order.ID token s5 = (.error err, s6))
    (hupd : i.OrdersUpdate order.ID { Status := OrderStatusCanceled } s6 = (upd, s7)) :
    MakeCharge i (.ok result) s =
      ⟨s7, validationLog result CardInfo token ++
        [.SkusGet i.Config.Stripe.SKU (.ok sku), .Printf sku.Inventory,
          .uuidNew (i.uuidNew s3).1,
          .OrdersNew (orderParams i.Config result (i.uuidNew s3).1) (.ok order),
          .OrdersPay order.ID token (.error err),
          .OrdersUpdate order.ID { Status := "canceled" } upd,
          .write (.BadRequest (errMsg err))]⟩ ∧
    (MakeCharge i (.ok result) s).log.filter Action.isOrdersUpdate =
      [.OrdersUpdate order.ID { Status := "canceled" } upd] ∧
    (MakeCharge i (.ok result) s).responses = [.BadRequest (errMsg err)] ∧
    (Written.BadRequest (errMsg err)).code = 400 ∧
    (∀ Msg text, err = .stripe Msg text → errMsg err = Msg) ∧
    (∀ text, err = .other text → errMsg err = text) ∧
    (MakeCharge i (.ok result) s).log.filter Action.isSendTicketEmail = [] := by
  obtain ⟨⟨⟨⟨h1, h2, h3, h4, h5, h6, h7⟩, h8⟩, hsku, hq⟩, hnew⟩ := h
  have hupd2 : i.OrdersUpdate order.ID { Status := "canceled" } s6 = (upd, s7) := hupd
  refine ⟨?_, ?_, ?_, rfl, ?_, ?_, ?_⟩
  · simp [MakeCharge, h1, h2, h3, h4, h5, h6, h7, Nat.not_lt.mpr h8, hsku, hq, hnew, hpay,
      hupd2, Run.after, validationLog, OrderStatusCanceled]
  · simp [MakeCharge, h1, h2, h3, h4, h5, h6, h7, Nat.not_lt.mpr h8, hsku, hq, hnew, hpay,
      hupd2, Run.after, OrderStatusCanceled, Action.isOrdersUpdate]
  · simp [MakeCharge, h1, h2, h3, h4, h5, h6, h7, Nat.not_lt.mpr h8, hsku, hq, hnew, hpay,
      hupd2, Run.after, OrderStatusCanceled, Run.responses, Action.written]
  · rintro Msg text rfl
    rfl
  · rintro text rfl
    rfl
  · simp [MakeCharge, h1, h2, h3, h4, h5, h6, h7, Nat.not_lt.mpr h8, hsku, hq, hnew, hpay,
      hupd2, Run.after, OrderStatusCanceled, Action.isSendTicketEmail]

/-- C5, on the end-to-end scenario where the processor declines the payment and
the cancellation fails too: the answer is the processor's message. -/
theorem failed_payment_cancels_order_witness :
    (MakeCharge payFailImpl (.ok demoRequest) 0).log.filter Action.isOrdersUpdate =
      [.OrdersUpdate "or_1" { Status := "canceled" } (.error connectionReset)] ∧
    (MakeCharge payFailImpl (.ok demoRequest) 0).responses =
      [.BadRequest "Your card was declined."] :=
  have h := failed_payment_cancels_order payFailImpl demoRequest 0 demoCard { ID := "tok_1" }
    { Inventory := { Quantity := 5, Type_ := "finite", Value := "" } }
    { ID := "or_1", Charge := { ID := "" } } 1 2 3 5 6 7 cardDeclined (.error connectionReset)
    ⟨⟨⟨⟨rfl, rfl, rfl, by decide, rfl, rfl, rfl⟩, by decide⟩, rfl, by decide⟩, rfl⟩ rfl rfl
  ⟨h.2.1, h.2.2.1⟩

/-- C7: for a request that passes all the validation steps, if the inventory
query fails with `err`, or if it succeeds with a quantity other than 0 and the
order creation fails with `err`, the run ends with the response 500 with status
"error" and the message `errMsg err`, which is `Msg` for a structured processor
error and the error text for any other error. In the first case the log holds
no order creation, and in both cases it holds no payment, no cancellation and
no ticket email. -/
theorem processor_failure_server_error {σ : Type} (i : Impl σ) (result : Request) (s : σ)
    (CardInfo : List (String × String)) (token : Token) (s1 s2 : σ)
    (h : PassesValidation i result s CardInfo token s1 s2) :
    (∀ err s3, i.SkusGet i.Config.Stripe.SKU s2 = (.error err, s3) →
      MakeCharge i (.ok result) s =
        ⟨s3, validationLog result CardInfo token ++
          [.SkusGet i.Config.Stripe.SKU (.error err),
            .write (.JSON 500 [("status", "error"), ("message", errMsg err)])]⟩ ∧
      (MakeCharge i (.ok result) s).responses =
        [.JSON 500 [("status", "error"), ("message", errMsg err)]] ∧
      ∀ a ∈ (MakeCharge i (.ok result) s).log,
        a.isOrdersNew = false ∧ a.isOrdersPay = false ∧ a.isOrdersUpdate = false ∧
        a.isSendTicketEmail = false) ∧
    (∀ sku s3 err s5, i.SkusGet i.Config.Stripe.SKU s2 = (.ok sku, s3) →
      sku.Inventory.Quantity ≠ 0 →
      i.OrdersNew (orderParams i.Config result (i.uuidNew s3).1) (i.uuidNew s3).2 =
        (.error err, s5) →
      MakeCharge i (.ok result) s =
        ⟨s5, validationLog result CardInfo token ++
          [.SkusGet i.Config.Stripe.SKU (.ok sku), .Printf sku.Inventory,
            .uuidNew (i.uuidNew s3).1,
            .OrdersNew (orderParams i.Config result (i.uuidNew s3).1) (.error err),
            .write (.JSON 500 [("status", "error"), ("message", errMsg err)])]⟩ ∧
      (MakeCharge i (.ok result) s).responses =
        [.JSON 500 [("status", "error"), ("message", errMsg err)]] ∧
      ∀ a ∈ (MakeCharge i (.ok result) s).log,
        a.isOrdersPay = false ∧ a.isOrdersUpdate = false ∧ a.isSendTicketEmail = false) ∧
    (∀ Msg text, errMsg (.stripe Msg text) = Msg) ∧
    (∀ text, errMsg (.other text) = text) := by
  obtain ⟨⟨h1, h2, h3, h4, h5, h6, h7⟩, h8⟩ := h
  refine ⟨?_, ?_, fun _ _ => rfl, fun _ => rfl⟩
  · intro err s3 hsku
    simp [MakeCharge, h1, h2, h3, h4, h5, h6, h7, Nat.not_lt.mpr h8, hsku, Run.after,
      validationLog, StatusInternalServerError, Run.responses, Action.written,
      Action.isOrdersNew, Action.isOrdersPay, Action.isOrdersUpdate, Action.isSendTicketEmail]
  · intro sku s3 err s5 hsku hq hnew
    simp [MakeCharge, h1, h2, h3, h4, h5, h6, h7, Nat.not_lt.mpr h8, hsku, hq, hnew, Run.after,
      validationLog, StatusInternalServerError, Run.responses, Action.written,
      Action.isOrdersPay, Action.isOrdersUpdate, Action.isSendTicketEmail]

/-- C7, on the end-to-end scenario: where the inventory query fails with an
unstructured error the answer is 500 with the error text, and where the order
creation fails with a structured processor error it is 500 with its `Msg`. -/
theorem processor_failure_server_error_witness :
    (MakeCharge skuFailImpl (.ok demoRequest) 0).responses =
      [.JSON 500 [("status", "error"), ("message", "read tcp: connection reset by peer")]] ∧
    (MakeCharge orderFailImpl (.ok demoRequest) 0).responses =
      [.JSON 500 [("status", "error"), ("message", "Your card was declined.")]] :=
  ⟨((processor_failure_server_error skuFailImpl demoRequest 0 demoCard { ID := "tok_1" } 1 2
      ⟨⟨rfl, rfl, rfl, by decide, rfl, rfl, rfl⟩, by decide⟩).1 connectionReset 3 rfl).2.1,
    ((processor_failure_server_error orderFailImpl demoRequest 0 demoCard { ID := "tok_1" } 1 2
      ⟨⟨rfl, rfl, rfl, by decide, rfl, rfl, rfl⟩, by decide⟩).2.1
      { Inventory := { Quantity := 5, Type_ := "finite", Value := "" } } 3 cardDeclined 5
      rfl (by decide) rfl).2.1⟩

/-- C8: for a request that reaches the payment step, whose payment succeeds
with the paid order `o` and whose ticket email then reports failure, the call
to the email collaborator is the last thing the handler does: the run ends
there, in the world that call left; the handler writes no response of its own,
and the log holds no order update, so nothing cancels or changes the paid
order. -/
theorem failed_email_ends_run {σ : Type} (i : Impl σ) (result : Request) (s : σ)
    (CardInfo : List (String × String)) (token : Token) (sku : SKU) (order o : Order)
    (s1 s2 s3 s5 s6 s8 : σ)
    (h : ReachesPayment i result s CardInfo token sku order s1 s2 s3 s5)
    (hpay : i.OrdersPay order.ID token s5 = (.ok o, s6))
    (hmail : i.SendTicketEmail (ticketEmail result o (i.uuidNew s3).1) s6 = (false, s8)) :
    MakeCharge i (.ok result) s =
      ⟨s8, validationLog result CardInfo token ++
        [.SkusGet i.Config.Stripe.SKU (.ok sku), .Printf sku.Inventory,
          .uuidNew (i.uuidNew s3).1,
          .OrdersNew (orderParams i.Config result (i.uuidNew s3).1) (.ok order),
          .OrdersPay order.ID token (.ok o),
          .goChargesUpdate o.Charge.ID { Description := "Informatics ball 2019 ticket" },
          .SendTicketEmail (ticketEmail result o (i.uuidNew s3).1) false]⟩ ∧
    (MakeCharge i (.ok result) s).responses = [] ∧
    (MakeCharge i (.ok result) s).log.filter Action.isOrdersUpdate = [] ∧
    (MakeCharge i (.ok result) s).log.getLast? =
      some (.SendTicketEmail (ticketEmail result o (i.uuidNew s3).1) false) := by
  obtain ⟨⟨⟨⟨h1, h2, h3, h4, h5, h6, h7⟩, h8⟩, hsku, hq⟩, hnew⟩ := h
  simp [MakeCharge, h1, h2, h3, h4, h5, h6, h7, Nat.not_lt.mpr h8, hsku, hq, hnew, hpay, hmail,
    Run.after, validationLog, Run.responses, Action.written, Action.isOrdersUpdate]

/-- C8, on the end-to-end scenario where the ticket email fails. -/
theorem failed_email_ends_run_witness :
    (MakeCharge mailFailImpl (.ok demoRequest) 0).responses = [] ∧
    (MakeCharge mailFailImpl (.ok demoRequest) 0).log.filter Action.isOrdersUpdate = [] :=
  have h := failed_email_ends_run mailFailImpl demoRequest 0 demoCard { ID := "tok_1" }
    { Inventory := { Quantity := 5, Type_ := "finite", Value := "" } }
    { ID := "or_1", Charge := { ID := "" } } { ID := "or_1", Charge := { ID := "ch_1" } }
    1 2 3 5 6 7
    ⟨⟨⟨⟨rfl, rfl, rfl, by decide, rfl, rfl, rfl⟩, by decide⟩, rfl, by decide⟩, rfl⟩ rfl rfl
  ⟨h.2.1, h.2.2.1⟩

/-- C9: for a request that reaches order creation, with `authToken` the token
that `uuid.New` returns there: the token is generated exactly once; exactly one
order is created, with metadata whose `auth_token` is that token, whose
`owner_name` and `purchaser_name` are the request's full name and whose
`owner_email` and `purchaser_email` are the request's email; every payment call
in the log is for the order that this creation returned; and every ticket email
in the log carries that same token. -/
theorem auth_token_threaded {σ : Type} (i : Impl σ) (result : Request) (s : σ)
    (CardInfo : List (String × String)) (token : Token) (sku : SKU) (s1 s2 s3 : σ)
    (h : ReachesOrderCreation i result s CardInfo token sku s1 s2 s3) :
    (MakeCharge i (.ok result) s).log.filter Action.isUuidNew = [.uuidNew (i.uuidNew s3).1] ∧
    (MakeCharge i (.ok result) s).log.filter Action.isOrdersNew =
      [.OrdersNew (orderParams i.Config result (i.uuidNew s3).1)
        (i.OrdersNew (orderParams i.Config result (i.uuidNew s3).1) (i.uuidNew s3).2).1] ∧
    mapGet (orderParams i.Config result (i.uuidNew s3).1).Metadata "auth_token" =
      (i.uuidNew s3).1 ∧
    mapGet (orderParams i.Config result (i.uuidNew s3).1).Metadata "owner_name" =
      result.FullName ∧
    mapGet (orderParams i.Config result (i.uuidNew s3).1).Metadata "purchaser_name" =
      result.FullName ∧
    mapGet (orderParams i.Config result (i.uuidNew s3).1).Metadata "owner_email" =
      result.Email ∧
    mapGet (orderParams i.Config result (i.uuidNew s3).1).Metadata "purchaser_email" =
      result.Email ∧
    (∀ id source ret, Action.OrdersPay id source ret ∈ (MakeCharge i (.ok result) s).log →
      ∃ order, (i.OrdersNew (orderParams i.Config result (i.uuidNew s3).1) (i.uuidNew s3).2).1 =
        .ok order ∧ id = order.ID) ∧
    (∀ mail ret, Action.SendTicketEmail mail ret ∈ (MakeCharge i (.ok result) s).log →
      mail.authToken = (i.uuidNew s3).1) := by
  obtain ⟨⟨⟨h1, h2, h3, h4, h5, h6, h7⟩, h8⟩, hsku, hq⟩ := h
  have hm : ∀ key value, (orderParams i.Config result (i.uuidNew s3).1).Metadata.lookup key =
      some value → mapGet (orderParams i.Config result (i.uuidNew s3).1).Metadata key = value := by
    intro key value hkey
    simp [mapGet, hkey]
  have hm1 := hm "auth_token" (i.uuidNew s3).1 rfl
  have hm2 := hm "owner_name" result.FullName rfl
  have hm3 := hm "purchaser_name" result.FullName rfl
  have hm4 := hm "owner_email" result.Email rfl
  have hm5 := hm "purchaser_email" result.Email rfl
  rcases hnew : i.OrdersNew (orderParams i.Config result (i.uuidNew s3).1) (i.uuidNew s3).2
    with ⟨created, s5⟩
  cases created with
  | error err =>
    refine ⟨?_, ?_, hm1, hm2, hm3, hm4, hm5, ?_, ?_⟩ <;>
    simp [MakeCharge, h1, h2, h3, h4, h5, h6, h7, Nat.not_lt.mpr h8, hsku, hq, hnew, Run.after,
      Action.isUuidNew, Action.isOrdersNew]
  | ok order =>
    rcases hpay : i.OrdersPay order.ID token s5 with ⟨paid, s6⟩
    cases paid with
    | error err =>
      refine ⟨?_, ?_, hm1, hm2, hm3, hm4, hm5, ?_, ?_⟩ <;>
      simp [MakeCharge, h1, h2, h3, h4, h5, h6, h7, Nat.not_lt.mpr h8, hsku, hq, hnew, hpay,
        Run.after, Action.isUuidNew, Action.isOrdersNew]
      intro id _ _ hid _ _
      exact hid
    | ok o =>
      rcases hmail : i.SendTicketEmail (ticketEmail result o (i.uuidNew s3).1) s6
        with ⟨mailed, s8⟩
      have hpaid : ∀ (id : String) (source : Token) (ret : Except GoError Order),
          id = order.ID → source = token → ret = Except.ok o → id = order.ID :=
        fun _ _ _ hid _ _ => hid
      have hsent : (ticketEmail result o (i.uuidNew s3).1).authToken = (i.uuidNew s3).1 := rfl
      cases mailed <;>
      refine ⟨?_, ?_, hm1, hm2, hm3, hm4, hm5, ?_, ?_⟩ <;>
      simp [MakeCharge, h1, h2, h3, h4, h5, h6, h7, Nat.not_lt.mpr h8, hsku, hq, hnew, hpay,
        hmail, Run.after, Action.isUuidNew, Action.isOrdersNew] <;>
      first
        | exact hpaid
        | exact hsent
/-- C9, on the end-to-end scenario: one token is generated, and the one order
that is created carries it in its metadata. -/
theorem auth_token_threaded_witness :
    (MakeCharge demoImpl (.ok demoRequest) 0).log.filter Action.isUuidNew =
      [.uuidNew "6ba7b810-9dad-11d1-80b4-00c04fd430c8"] ∧
    (MakeCharge demoImpl (.ok demoRequest) 0).log.filter Action.isOrdersNew =
      [.OrdersNew (orderParams demoConfig demoRequest "6ba7b810-9dad-11d1-80b4-00c04fd430c8")
        (.ok { ID := "or_1", Charge := { ID := "" } })] ∧
    mapGet (orderParams demoConfig demoRequest "6ba7b810-9dad-11d1-80b4-00c04fd430c8").Metadata
      "auth_token" = "6ba7b810-9dad-11d1-80b4-00c04fd430c8" :=
  have h := auth_token_threaded demoImpl demoRequest 0 demoCard { ID := "tok_1" }
    { Inventory := { Quantity := 5, Type_ := "finite", Value := "" } } 1 2 3
    ⟨⟨⟨rfl, rfl, rfl, by decide, rfl, rfl, rfl⟩, by decide⟩, rfl, by decide⟩
  ⟨h.1, h.2.1, h.2.2.1⟩

/-- What the handler does about the success response: it writes a response
with status 200 if and only if every step succeeds and the special requests
also pass the length check on bytes; and then its one response is 200 with
status "success" and, as data, the id of the paid order that the payment step
returned. -/
theorem success_iff_all_steps_and_byte_limit {σ : Type} (i : Impl σ)
    (bind : Except String Request) (s : σ) :
    ((∃ w ∈ (MakeCharge i bind s).responses, w.code = 200) ↔
      ∃ o, AllStepsSucceed i bind s o ∧ PassesLengthCheck bind) ∧
    (∀ o, AllStepsSucceed i bind s o → PassesLengthCheck bind →
      (MakeCharge i bind s).responses =
        [.JSON 200 [("status", "success"), ("data", o.ID)]]) := by
  have hall : ∀ o, AllStepsSucceed i bind s o → PassesLengthCheck bind →
      (MakeCharge i bind s).responses =
        [.JSON 200 [("status", "success"), ("data", o.ID)]] := by
    rintro o ⟨result, CardInfo, token, sku, order, s1, s2, s3, s5, s6, s8, rfl,
      ⟨h1, h2, h3, h4, h5, h6, h7⟩, _, hsku, hq, hnew, hpay, hmail⟩ hbytes
    have h8 := hbytes result rfl
    simp [MakeCharge, h1, h2, h3, h4, h5, h6, h7, Nat.not_lt.mpr h8, hsku, hq, hnew, hpay,
      hmail, Run.after, Run.responses, Action.written, StatusOK]
  refine ⟨⟨?_, ?_⟩, hall⟩
  · intro h
    cases bind with
    | error e =>
      simp [MakeCharge, Run.responses, Action.written, Written.code] at h
    | ok result =>
      by_cases h1 : result.StaffCode = i.Config.StaffCode
      swap
      · simp [MakeCharge, h1, Run.responses, Action.written, Written.code] at h
      cases h2 : result.CardInfo with
      | none => simp [MakeCharge, h1, h2, Run.responses, Action.written, Written.code] at h
      | some CardInfo =>
        rcases h3 : i.tokenNew (cardParams CardInfo) s with ⟨tokenized, s1⟩
        cases tokenized with
        | error e =>
          simp [MakeCharge, h1, h2, h3, Run.after, Run.responses, Action.written,
            Written.code] at h
        | ok token =>
          by_cases h4 : result.FullName = ""
          · simp [MakeCharge, h1, h2, h3, h4, Run.after, Run.responses, Action.written,
              Written.code] at h
          cases h5 : i.mailParseAddress (toAddress result) with
          | error e =>
            simp [MakeCharge, h1, h2, h3, h4, h5, Run.after, Run.responses, Action.written,
              Written.code] at h
          | ok parsed =>
            rcases h6 : i.CheckUUN result.UUN s1 with ⟨accepted, s2⟩
            cases accepted with
            | false =>
              simp [MakeCharge, h1, h2, h3, h4, h5, h6, Run.after, Run.responses,
                Action.written, Written.code] at h
            | true =>
              cases h7 : i.IsMealValid result.MealType with
              | false =>
                simp [MakeCharge, h1, h2, h3, h4, h5, h6, h7, Run.after, Run.responses,
                  Action.written, Written.code] at h
              | true =>
                by_cases h8 : 500 < result.SpecialReqs.utf8ByteSize
                · simp [MakeCharge, h1, h2, h3, h4, h5, h6, h7, h8, Run.after, Run.responses,
                    Action.written, Written.code] at h
                rcases hsku : i.SkusGet i.Config.Stripe.SKU s2 with ⟨found, s3⟩
                cases found with
                | error e =>
                  simp [MakeCharge, h1, h2, h3, h4, h5, h6, h7, h8, hsku, Run.after,
                    Run.responses, Action.written, Written.code,
                    StatusInternalServerError] at h
                | ok sku =>
                  by_cases hq : sku.Inventory.Quantity = 0
                  · simp [MakeCharge, h1, h2, h3, h4, h5, h6, h7, h8, hsku, hq, Run.after,
                      Run.responses, Action.written, Written.code, StatusGone] at h
                  rcases hnew : i.OrdersNew (orderParams i.Config result (i.uuidNew s3).1)
                    (i.uuidNew s3).2 with ⟨created, s5⟩
                  cases created with
                  | error e =>
                    simp [MakeCharge, h1, h2, h3, h4, h5, h6, h7, h8, hsku, hq, hnew, Run.after,
                      Run.responses, Action.written, Written.code,
                      StatusInternalServerError] at h
                  | ok order =>
                    rcases hpay : i.OrdersPay order.ID token s5 with ⟨paid, s6⟩
                    cases paid with
                    | error e =>
                      simp [MakeCharge, h1, h2, h3, h4, h5, h6, h7, h8, hsku, hq, hnew, hpay,
                        Run.after, Run.responses, Action.written, Written.code] at h
                    | ok o =>
                      rcases hmail : i.SendTicketEmail
                        (ticketEmail result o (i.uuidNew s3).1) s6 with ⟨mailed, s8⟩
                      cases mailed with
                      | false =>
                        simp [MakeCharge, h1, h2, h3, h4, h5, h6, h7, h8, hsku, hq, hnew, hpay,
                          hmail, Run.after, Run.responses, Action.written, Written.code] at h
                      | true =>
                        have hbytes : result.SpecialReqs.utf8ByteSize ≤ 500 := Nat.not_lt.mp h8
                        refine ⟨o, ⟨result, CardInfo, token, sku, order, s1, s2, s3, s5, s6, s8,
                          rfl, ⟨h1, h2, h3, h4, h5, h6, h7⟩,
                          Nat.le_trans (length_le_utf8ByteSize _) hbytes, hsku, hq, hnew, hpay,
                          hmail⟩, ?_⟩
                        intro result2 hresult
                        cases hresult
                        exact hbytes
  · rintro ⟨o, ho, hbytes⟩
    refine ⟨.JSON 200 [("status", "success"), ("data", o.ID)], ?_, rfl⟩
    rw [hall o ho hbytes]
    exact List.mem_singleton.mpr rfl

/-- The end-to-end scenario of the spec: every step succeeds, and the handler
answers 200 with the id of the paid order. -/
theorem demo_scenario_succeeds :
    (MakeCharge demoImpl (.ok demoRequest) 0).responses =
      [.JSON 200 [("status", "success"), ("data", "or_1")]] :=
  (success_iff_all_steps_and_byte_limit demoImpl (.ok demoRequest) 0).2
    { ID := "or_1", Charge := { ID := "ch_1" } }
    ⟨demoRequest, demoCard, { ID := "tok_1" },
      { Inventory := { Quantity := 5, Type_ := "finite", Value := "" } },
      { ID := "or_1", Charge := { ID := "" } }, 1, 2, 3, 5, 6, 7, rfl,
      ⟨rfl, rfl, rfl, by decide, rfl, rfl, rfl⟩, by decide, rfl, by decide, rfl, rfl, rfl⟩
    (fun result hresult => by cases hresult; decide)

/-- The length check of step 9 counts bytes: a request that passes steps 2 to 8
is rejected with the length-limit error exactly when its special requests take
more than 500 bytes in UTF-8. -/
theorem length_check_counts_bytes {σ : Type} (i : Impl σ) (result : Request) (s : σ)
    (CardInfo : List (String × String)) (token : Token) (s1 s2 : σ)
    (h : PassesSteps2to8 i result s CardInfo token s1 s2) :
    (MakeCharge i (.ok result) s).log =
        validationLog result CardInfo token ++ [.write (.BadRequest lengthLimitMessage)] ↔
      500 < result.SpecialReqs.utf8ByteSize := by
  constructor
  · intro hlog
    by_contra hlen
    obtain ⟨h1, h2, h3, h4, h5, h6, h7⟩ := h
    simp [MakeCharge, h1, h2, h3, h4, h5, h6, h7, hlen, Run.after, validationLog] at hlog
  · intro hlen
    rw [run_of_long_special_reqs i result s CardInfo token s1 s2 h hlen]

/-- C10 fails on the code: the end-to-end scenario with special requests of 251
characters, each of two bytes, passes steps 2 to 8 and has at most 500
characters, yet it is rejected with the length-limit error and no inventory
query is made; the check is on the 502 bytes. -/
theorem multibyte_special_reqs_rejected :
    PassesSteps2to8 demoImpl multibyteRequest 0 demoCard { ID := "tok_1" } 1 2 ∧
    multibyteRequest.SpecialReqs.length = 251 ∧
    multibyteRequest.SpecialReqs.utf8ByteSize = 502 ∧
    MakeCharge demoImpl (.ok multibyteRequest) 0 =
      ⟨2, validationLog multibyteRequest demoCard { ID := "tok_1" } ++
        [.write (.BadRequest lengthLimitMessage)]⟩ ∧
    (MakeCharge demoImpl (.ok multibyteRequest) 0).log.filter Action.isSkusGet = [] := by
  have hpass : PassesSteps2to8 demoImpl multibyteRequest 0 demoCard { ID := "tok_1" } 1 2 :=
    ⟨rfl, rfl, rfl, by decide, rfl, rfl, rfl⟩
  have hsize : multibyteRequest.SpecialReqs.utf8ByteSize = 502 := by
    show (repeated 251 (Char.ofNat 233)).utf8ByteSize = 502
    rw [utf8ByteSize_repeated]
    decide
  have hrun := run_of_long_special_reqs demoImpl multibyteRequest 0 demoCard { ID := "tok_1" }
    1 2 hpass (by rw [hsize]; decide)
  refine ⟨hpass, ?_, hsize, hrun, ?_⟩
  · show (repeated 251 (Char.ofNat 233)).length = 251
    exact length_repeated _ _
  · rw [hrun]
    simp [validationLog, Action.isSkusGet]

end charge
